import Mathlib

/-!
Shallow embedding of the order and user routers of the food-ordering
backend (`src/routers/order.router.js`, `src/routers/user.router.js`).
The document store is modelled as an explicit list of records; each route
handler becomes a pure function from its request inputs and the current
store to a result (and, where it writes, an updated store).
-/

/-- Order status string constants. Modelled from the spec: the file
`src/constants/orderStatus.js` is not under `src/`; the spec (§6) records the
observed enumeration values `NEW`, `PAID` (also spelled `PAYED` in one code
path) and `FAILED`. -/
def OrderStatus.NEW : String := "NEW"

/-- The canonical paid-state spelling, used by the `/:id/status` route. -/
def OrderStatus.PAID : String := "PAID"

/-- The alternate paid-state spelling, used by the `/pay` route. -/
def OrderStatus.PAYED : String := "PAYED"

/-- The terminal failure status. -/
def OrderStatus.FAILED : String := "FAILED"

/-- A line item of an order (`OrderItem` swagger schema): a food snapshot
reference, a quantity and a line price. -/
structure OrderItem where
  foodId : Nat
  quantity : Nat
  price : Int
deriving DecidableEq, Repr

/-- An order document (`Order` swagger schema plus the fields the routes
touch): id, owning user, items, total, optional payment token, status string
and creation timestamp. -/
structure Order where
  oid : Nat
  user : Nat
  items : List OrderItem
  totalPrice : Int
  paymentId : Option String
  status : String
  createdAt : Nat
deriving DecidableEq, Repr

/-- A user document (`User` swagger schema). -/
structure User where
  uid : Nat
  email : String
  password : String
  name : String
  address : String
  isAdmin : Bool
  isBlocked : Bool
deriving DecidableEq, Repr

/-- The decoded token claims placed on `req.user` by the auth middleware;
`generateTokenResponse` in `user.router.js` signs `{ id, email, isAdmin }`. -/
structure TokenClaims where
  id : Nat
  email : String
  isAdmin : Bool
deriving DecidableEq, Repr

/-- Lookup `UserModel.findById`: first user whose id matches. -/
def UserModel.findById (users : List User) (i : Nat) : Option User :=
  users.find? (fun u => u.uid == i)

/-- Lookup `OrderModel.findById`: first order whose id matches. -/
def OrderModel.findById (store : List Order) (i : Nat) : Option Order :=
  store.find? (fun o => o.oid == i)

/-- The JSON body of `POST /orders/create`: the swagger schema requires
`items`; a client may additionally send `totalPrice` and a `user` field
(the route spreads the whole body into the new document). -/
structure CreateOrderBody where
  items : List OrderItem
  totalPrice : Int
  user : Option Nat
deriving DecidableEq, Repr

/-- Result of the create route: whether the `Cart Is Empty!` client error
was sent, the document that was constructed, and the store after `save()`. -/
structure CreateResult where
  errorSent : Bool
  created : Order
  store : List Order
deriving DecidableEq, Repr

/-- Handler `router.post('/create')`: sends a 400 `Cart Is Empty!` when
`items.length <= 0` but does not return, then builds
`new OrderModel({ ...order, user: req.user.id })` — the explicit `user`
property is written after the spread, so it always wins over any
body-supplied `user` — and saves it. The schema default `status: NEW` and
the creation timestamp are modelled from the spec (§3: "a created order
starts in status NEW"), `src/models/order.model.js` not being under `src/`. -/
def createOrder (reqUser : TokenClaims) (body : CreateOrderBody)
    (freshId now : Nat) (store : List Order) : CreateResult :=
  let newOrder : Order :=
    { oid := freshId
      user := reqUser.id
      items := body.items
      totalPrice := body.totalPrice
      paymentId := none
      status := OrderStatus.NEW
      createdAt := now }
  { errorSent := body.items.isEmpty
    created := newOrder
    store := store ++ [newOrder] }

/-- Modelled from the spec: `getNewOrderForCurrentUser` is called by the
`/pay` route but its definition is not under `src/`. The spec says the
route "locates the caller's most recent `NEW` order" and that with several
`NEW` orders it "must deterministically pick the most recently created one"
(§4.1). Among the caller's `NEW` orders, this keeps the one with the
largest creation timestamp (first such on ties). -/
def getNewOrderForCurrentUser (userId : Nat) (store : List Order) : Option Order :=
  (store.filter (fun o => o.user == userId && o.status == OrderStatus.NEW)).foldl
    (fun acc o =>
      match acc with
      | none => some o
      | some b => if b.createdAt < o.createdAt then some o else some b)
    none

/-- Result of `PUT /orders/pay`: 400 `Order Not Found!`, or the paid
order's id together with the store after `save()`. -/
inductive PayResult where
  | notFound
  | payed (orderId : Nat) (store : List Order)
deriving DecidableEq, Repr

/-- Handler `router.put('/pay')`: fetches the caller's new order; if none, 400
`Order Not Found!`; otherwise sets `paymentId`, sets
`status = OrderStatus.PAYED`, saves, and responds with the order id. -/
def payOrder (reqUser : TokenClaims) (paymentId : String)
    (store : List Order) : PayResult :=
  match getNewOrderForCurrentUser reqUser.id store with
  | none => .notFound
  | some o =>
    let o' : Order := { o with paymentId := some paymentId, status := OrderStatus.PAYED }
    .payed o'.oid (store.map (fun x => if x.oid == o.oid then o' else x))

/-- Result of `GET /orders/track/:orderId`: the order, the `UNAUTHORIZED`
constant sent as body, or a thrown error (reading `.isAdmin` off a null
user) surfaced by the async handler. -/
inductive TrackResult where
  | found (o : Order)
  | unauthorized
  | serverError
deriving DecidableEq, Repr

/-- Handler `router.get('/track/:orderId')`: freshly resolves the caller's stored
user record, builds the filter `{ _id: orderId }` plus `user: user._id`
when the stored record is not an admin, and sends `UNAUTHORIZED` when
`findOne` returns nothing. -/
def track (reqUser : TokenClaims) (users : List User) (store : List Order)
    (orderId : Nat) : TrackResult :=
  match UserModel.findById users reqUser.id with
  | none => .serverError
  | some u =>
    match store.find? (fun o => o.oid == orderId && (u.isAdmin || o.user == u.uid)) with
    | none => .unauthorized
    | some o => .found o

/-- Result of `GET /orders/:status?`. -/
inductive ListResult where
  | found (orders : List Order)
  | serverError
deriving DecidableEq, Repr

/-- The `sort('-createdAt')` comparison: descending creation time. -/
def byCreatedDesc (a b : Order) : Prop := b.createdAt ≤ a.createdAt

instance : DecidableRel byCreatedDesc :=
  fun a b => inferInstanceAs (Decidable (b.createdAt ≤ a.createdAt))

instance : IsTotal Order byCreatedDesc :=
  ⟨fun a b => Nat.le_total b.createdAt a.createdAt⟩

instance : IsTrans Order byCreatedDesc :=
  ⟨fun _ _ _ hab hbc => Nat.le_trans hbc hab⟩

/-- Handler `router.get('/:status?')`: freshly resolves the caller's stored user
record; the filter gains `user: user._id` when the stored record is not an
admin and `status` when the path parameter is present; results are sorted
by `-createdAt`. -/
def listOrders (reqUser : TokenClaims) (users : List User) (store : List Order)
    (status : Option String) : ListResult :=
  match UserModel.findById users reqUser.id with
  | none => .serverError
  | some u =>
    let filtered := store.filter (fun o =>
      (u.isAdmin || o.user == u.uid) &&
        (match status with
         | none => true
         | some s => o.status == s))
    .found (List.insertionSort byCreatedDesc filtered)

/-- Result of `PUT /orders/:id/status`: 400 invalid update, 404 not found,
or 200 with the updated order and the store after the conditional update. -/
inductive UpdateStatusResult where
  | invalidRequest (store : List Order)
  | notFound (store : List Order)
  | ok (order : Order) (store : List Order)
deriving DecidableEq, Repr

/-- The `findByIdAndUpdate(id, { status: newStatus }, { new: true })` call
of the status route: 404 when no order has the id, otherwise the store with
that order's status replaced, returning the updated document. -/
def updateStatusTo (id : Nat) (newStatus : String) (store : List Order) :
    UpdateStatusResult :=
  match OrderModel.findById store id with
  | none => .notFound store
  | some o =>
    let o' : Order := { o with status := newStatus }
    .ok o' (store.map (fun x => if x.oid == id then o' else x))

/-- Handler `router.put('/:id/status')`: picks `FAILED` when `isExpired`, else
`PAID` when `isPaid`, else responds 400 without touching the store; then
`findByIdAndUpdate(id, { status }, { new: true })`, responding 404 when no
order has that id. -/
def updateStatus (id : Nat) (isPaid isExpired : Bool)
    (store : List Order) : UpdateStatusResult :=
  if isExpired then updateStatusTo id OrderStatus.FAILED store
  else if isPaid then updateStatusTo id OrderStatus.PAID store
  else .invalidRequest store

/-- The argument the fetch route passes to `getOrder`: a parsed order id on
the first call, but the whole Express request object on the retry
(`order = await getOrder(req)` at `order.router.js:226`). -/
inductive IdArg where
  | oid (n : Nat)
  | reqObject
deriving DecidableEq, Repr

/-- Lookup `OrderModel.findById` as invoked by `getOrder`: casting the request
object to an ObjectId fails, which mongoose surfaces as a rejected promise
(a thrown `CastError`), modelled as `Except.error`. -/
def findByIdArg (store : List Order) : IdArg → Except Unit (Option Order)
  | .oid n => .ok (OrderModel.findById store n)
  | .reqObject => .error ()

/-- Result of `GET /orders/order/:orderId`: the order, a 400 empty
response, or the 500 from the catch block. -/
inductive FetchResult where
  | ok (o : Order)
  | badRequest
  | internalError
deriving DecidableEq, Repr

/-- Handler `router.get('/order/:orderId')`: calls `getOrder(orderId)`; when that finds
nothing it retries with `getOrder(req)` — the request object, not the id —
and any thrown error lands in the catch block as a 500. -/
def fetchOrder (store : List Order) (orderId : Nat) : FetchResult :=
  match findByIdArg store (.oid orderId) with
  | .error _ => .internalError
  | .ok (some o) => .ok o
  | .ok none =>
    match findByIdArg store .reqObject with
    | .error _ => .internalError
    | .ok (some o) => .ok o
    | .ok none => .badRequest

/-- The `email.toLowerCase()` call of the register route, as the
character-wise lower-casing of the email string. -/
def jsToLowerCase (s : String) : String := ⟨s.data.map Char.toLower⟩

/-- Result of `POST /users/register`: 400 `User already exists`, or the
created user and the store after `UserModel.create`. -/
inductive RegisterResult where
  | alreadyExists (users : List User)
  | ok (newUser : User) (users : List User)
deriving DecidableEq, Repr

/-- Handler `router.post('/register')`: runs `findOne({ email })` with the raw request
email; when it matches, 400 `User already exists, please login!`; otherwise
creates `{ name, email: email.toLowerCase(), password: hash, address }`.
The password hash is an opaque collaborator, passed in as a function; the
`isAdmin`/`isBlocked` schema defaults are modelled from the spec (§3),
`src/models/user.model.js` not being under `src/`. -/
def register (name email password address : String) (hash : String → String)
    (freshId : Nat) (users : List User) : RegisterResult :=
  match users.find? (fun u => u.email == email) with
  | some _ => .alreadyExists users
  | none =>
    let newUser : User :=
      { uid := freshId
        email := jsToLowerCase email
        password := hash password
        name := name
        address := address
        isAdmin := false
        isBlocked := false }
    .ok newUser (users ++ [newUser])

/-! Concrete sample documents used to evaluate the handlers. -/

/-- An early `NEW` order of user 1. -/
def ordOld : Order :=
  { oid := 1, user := 1, items := [{ foodId := 11, quantity := 2, price := 5 }]
    totalPrice := 10, paymentId := none, status := OrderStatus.NEW, createdAt := 10 }

/-- A later `NEW` order of user 1. -/
def ordNewer : Order :=
  { oid := 2, user := 1, items := [{ foodId := 12, quantity := 1, price := 7 }]
    totalPrice := 7, paymentId := none, status := OrderStatus.NEW, createdAt := 20 }

/-- A `NEW` order of user 2. -/
def ordOther : Order :=
  { oid := 3, user := 2, items := [{ foodId := 13, quantity := 1, price := 3 }]
    totalPrice := 3, paymentId := none, status := OrderStatus.NEW, createdAt := 30 }

/-- The later order of user 1 after the pay route has run on it. -/
def ordNewerPayed : Order :=
  { ordNewer with paymentId := some "tok123", status := OrderStatus.PAYED }

/-- A store holding two `NEW` orders of user 1 and one of user 2. -/
def payStore : List Order := [ordOld, ordNewer, ordOther]

/-- A stored user record with id 1 whose current role is administrator. -/
def adminU1 : User :=
  { uid := 1, email := "a@x.com", password := "h", name := "Admin", address := "HQ"
    isAdmin := true, isBlocked := false }

/-- The same stored identity as `adminU1` but with the role revoked. -/
def plainU1 : User := { adminU1 with isAdmin := false }

/-- A stored non-administrator user record with id 5. -/
def plainU5 : User :=
  { uid := 5, email := "p@x.com", password := "h", name := "Pat", address := "Home"
    isAdmin := false, isBlocked := false }

/-! Theorems settling the claims. -/

/-- C1: the pay route picks the caller's most recently created `NEW` order
and sets its payment token, and fails with `Order Not Found!` for a caller
with no `NEW` order — but the status it writes is the string `PAYED`, not
the `PAID` the claim states. -/
theorem C1_pay_picks_most_recent_but_writes_PAYED :
    payOrder { id := 1, email := "a@x.com", isAdmin := false } "tok123" payStore
      = .payed 2 [ordOld, ordNewerPayed, ordOther] ∧
    ordNewerPayed.paymentId = some "tok123" ∧
    ordNewerPayed.status = OrderStatus.PAYED ∧
    OrderStatus.PAYED ≠ OrderStatus.PAID ∧
    payOrder { id := 7, email := "c@x.com", isAdmin := false } "tok123" payStore
      = .notFound := by
  decide

/-- C2: the status route moves the order to `FAILED` when `isExpired` is
set, else to `PAID` when `isPaid` is set, responds 404 when no order has
the id in those branches, and responds 400 leaving the store untouched when
neither flag is set. -/
theorem C2_updateStatus_flag_semantics (id : Nat) (isPaid isExpired : Bool)
    (store : List Order) :
    (isExpired = true →
      (∀ o, OrderModel.findById store id = some o →
        updateStatus id isPaid isExpired store =
          .ok { o with status := OrderStatus.FAILED }
            (store.map (fun x =>
              if x.oid == id then { o with status := OrderStatus.FAILED } else x))) ∧
      (OrderModel.findById store id = none →
        updateStatus id isPaid isExpired store = .notFound store)) ∧
    (isExpired = false → isPaid = true →
      (∀ o, OrderModel.findById store id = some o →
        updateStatus id isPaid isExpired store =
          .ok { o with status := OrderStatus.PAID }
            (store.map (fun x =>
              if x.oid == id then { o with status := OrderStatus.PAID } else x))) ∧
      (OrderModel.findById store id = none →
        updateStatus id isPaid isExpired store = .notFound store)) ∧
    (isExpired = false → isPaid = false →
      updateStatus id isPaid isExpired store = .invalidRequest store) := by
  refine ⟨fun he => ⟨fun o ho => ?_, fun hn => ?_⟩,
    fun he hp => ⟨fun o ho => ?_, fun hn => ?_⟩, fun he hp => ?_⟩ <;>
    simp [updateStatus, updateStatusTo, he, *]

/-- Closed instance of `C2_updateStatus_flag_semantics` at concrete inputs. -/
theorem C2_updateStatus_flag_semantics_witness :
    updateStatus 1 false true [ordOld] =
      .ok { ordOld with status := OrderStatus.FAILED }
        ([ordOld].map (fun x =>
          if x.oid == 1 then { ordOld with status := OrderStatus.FAILED } else x)) ∧
    updateStatus 1 false false [ordOld] = .invalidRequest [ordOld] :=
  ⟨((C2_updateStatus_flag_semantics 1 false true [ordOld]).1 rfl).1 ordOld (by decide),
   (C2_updateStatus_flag_semantics 1 false false [ordOld]).2.2 rfl rfl⟩

/-- C3: a caller whose freshly resolved stored record is not an
administrator gets `UNAUTHORIZED` from the track route for any existing
order they do not own (order ids being unique in the store). -/
theorem C3_track_nonowner_unauthorized (reqUser : TokenClaims)
    (users : List User) (store : List Order) (u : User) (o : Order)
    (hu : UserModel.findById users reqUser.id = some u)
    (hadmin : u.isAdmin = false)
    (ho : o ∈ store)
    (howner : o.user ≠ u.uid)
    (huniq : ∀ o' ∈ store, o'.oid = o.oid → o' = o) :
    track reqUser users store o.oid = .unauthorized := by
  have hfind :
      store.find? (fun x => x.oid == o.oid && (u.isAdmin || x.user == u.uid))
        = none := by
    refine List.find?_eq_none.mpr (fun x hx hpx => ?_)
    rw [hadmin] at hpx
    simp only [Bool.false_or, Bool.and_eq_true, beq_iff_eq] at hpx
    have hxo : x = o := huniq x hx hpx.1
    subst hxo
    exact howner hpx.2
  simp only [track, hu, hfind]

/-- Closed instance of `C3_track_nonowner_unauthorized`: user 5 tracking
user 2's order. -/
theorem C3_track_nonowner_unauthorized_witness :
    track { id := 5, email := "p@x.com", isAdmin := false } [plainU5] [ordOther]
      ordOther.oid = .unauthorized :=
  C3_track_nonowner_unauthorized { id := 5, email := "p@x.com", isAdmin := false }
    [plainU5] [ordOther] plainU5 ordOther (by decide) (by decide) (by decide)
    (by decide) (by decide)

/-- C4: for a caller whose stored record resolves, the list route returns
exactly the orders the caller may see — every order when the stored record
is an administrator, only the caller's own otherwise, narrowed to the given
status when one is supplied — sorted by creation time, most recent first. -/
theorem C4_listOrders_scope_and_sort (reqUser : TokenClaims)
    (users : List User) (store : List Order) (u : User) (status : Option String)
    (hu : UserModel.findById users reqUser.id = some u) :
    ∃ L, listOrders reqUser users store status = .found L ∧
      (∀ o, o ∈ L ↔ o ∈ store ∧ (u.isAdmin = true ∨ o.user = u.uid) ∧
        ∀ s, status = some s → o.status = s) ∧
      L.Sorted byCreatedDesc := by
  have h1 : listOrders reqUser users store status =
      .found (List.insertionSort byCreatedDesc (store.filter (fun o =>
        (u.isAdmin || o.user == u.uid) &&
          (match status with
           | none => true
           | some s => o.status == s)))) := by
    simp only [listOrders, hu]
  refine ⟨_, h1, fun o => ?_, List.sorted_insertionSort byCreatedDesc _⟩
  rw [List.mem_insertionSort, List.mem_filter]
  cases status with
  | none =>
    simp only [Bool.and_true, Bool.or_eq_true, beq_iff_eq]
    exact ⟨fun ⟨hm, hp⟩ => ⟨hm, hp, fun s hs => nomatch hs⟩,
      fun ⟨hm, hp, _⟩ => ⟨hm, hp⟩⟩
  | some s =>
    simp only [Bool.and_eq_true, Bool.or_eq_true, beq_iff_eq]
    refine ⟨fun ⟨hm, hp, hs⟩ => ⟨hm, hp, fun s' hs' => ?_⟩,
      fun ⟨hm, hp, hs⟩ => ⟨hm, hp, hs s rfl⟩⟩
    cases hs'
    exact hs

/-- Closed instance of `C4_listOrders_scope_and_sort`: an administrator
listing with a status filter over the sample store. -/
theorem C4_listOrders_scope_and_sort_witness :
    ∃ L, listOrders { id := 1, email := "a@x.com", isAdmin := false } [adminU1]
        payStore (some OrderStatus.NEW) = .found L ∧
      (∀ o, o ∈ L ↔ o ∈ payStore ∧ (adminU1.isAdmin = true ∨ o.user = adminU1.uid) ∧
        ∀ s, some OrderStatus.NEW = some s → o.status = s) ∧
      L.Sorted byCreatedDesc :=
  C4_listOrders_scope_and_sort { id := 1, email := "a@x.com", isAdmin := false }
    [adminU1] payStore adminU1 (some OrderStatus.NEW) (by decide)

/-- C5: a create request whose item list is non-empty raises no validation
error and yields a saved order owned by the caller with status `NEW`. -/
theorem C5_create_nonempty_owner_and_status (reqUser : TokenClaims)
    (body : CreateOrderBody) (freshId now : Nat) (store : List Order)
    (hitems : body.items ≠ []) :
    (createOrder reqUser body freshId now store).errorSent = false ∧
    (createOrder reqUser body freshId now store).created.user = reqUser.id ∧
    (createOrder reqUser body freshId now store).created.status
      = OrderStatus.NEW ∧
    (createOrder reqUser body freshId now store).store
      = store ++ [(createOrder reqUser body freshId now store).created] := by
  refine ⟨?_, rfl, rfl, rfl⟩
  simpa [createOrder, List.isEmpty_eq_false] using hitems

/-- Closed instance of `C5_create_nonempty_owner_and_status` for caller 1
and a one-item cart. -/
theorem C5_create_nonempty_witness :
    (createOrder { id := 1, email := "a@x.com", isAdmin := false }
      { items := [{ foodId := 11, quantity := 2, price := 5 }], totalPrice := 10
        user := none } 9 50 []).errorSent = false ∧
    (createOrder { id := 1, email := "a@x.com", isAdmin := false }
      { items := [{ foodId := 11, quantity := 2, price := 5 }], totalPrice := 10
        user := none } 9 50 []).created.user = 1 ∧
    (createOrder { id := 1, email := "a@x.com", isAdmin := false }
      { items := [{ foodId := 11, quantity := 2, price := 5 }], totalPrice := 10
        user := none } 9 50 []).created.status = OrderStatus.NEW ∧
    (createOrder { id := 1, email := "a@x.com", isAdmin := false }
      { items := [{ foodId := 11, quantity := 2, price := 5 }], totalPrice := 10
        user := none } 9 50 []).store
      = [] ++ [(createOrder { id := 1, email := "a@x.com", isAdmin := false }
          { items := [{ foodId := 11, quantity := 2, price := 5 }], totalPrice := 10
            user := none } 9 50 []).created] :=
  C5_create_nonempty_owner_and_status
    { id := 1, email := "a@x.com", isAdmin := false }
    { items := [{ foodId := 11, quantity := 2, price := 5 }], totalPrice := 10
      user := none } 9 50 [] (by decide)

/-- The create route evaluated on an empty cart. -/
def emptyCartResult : CreateResult :=
  createOrder { id := 1, email := "a@x.com", isAdmin := false }
    { items := [], totalPrice := 0, user := none } 100 5 []

/-- C6: on an empty item list the create route sends the `Cart Is Empty!`
client error, yet — the check not halting the handler — it still builds and
saves a new order record for the request. -/
theorem C6_empty_cart_error_sent_but_order_created :
    emptyCartResult.errorSent = true ∧
    emptyCartResult.store = [emptyCartResult.created] ∧
    emptyCartResult.created.user = 1 ∧
    emptyCartResult.created.status = OrderStatus.NEW := by
  decide

/-- C7: the fetch route returns an existing order, but on a missing id its
retry branch passes the request object to `getOrder`, whose id cast throws,
so the route answers 500 rather than the 400 not-found response. -/
theorem C7_fetch_missing_id_gives_500 :
    fetchOrder [ordOld] ordOld.oid = .ok ordOld ∧
    fetchOrder [ordOld] 999 = .internalError ∧
    FetchResult.internalError ≠ FetchResult.badRequest := by
  decide

/-- C8: track and list scope from the freshly resolved stored user record:
the role claim cached in the caller's token is never consulted — two tokens
agreeing on the id give identical results — while the same token against
stores differing only in the stored role is scoped differently. -/
theorem C8_scope_uses_stored_role_not_token :
    (∀ (t t' : TokenClaims) (users : List User) (store : List Order)
        (oid : Nat) (st : Option String), t.id = t'.id →
        track t users store oid = track t' users store oid ∧
        listOrders t users store st = listOrders t' users store st) ∧
    track { id := 1, email := "a@x.com", isAdmin := true } [adminU1] [ordOther] 3
      ≠ track { id := 1, email := "a@x.com", isAdmin := true } [plainU1] [ordOther] 3 := by
  constructor
  · intro t t' users store oid st h
    constructor
    · unfold track
      rw [h]
    · unfold listOrders
      rw [h]
  · decide

/-- Closed instance of `C8_scope_uses_stored_role_not_token`: two tokens
with the same id but opposite cached role claims track identically. -/
theorem C8_scope_uses_stored_role_witness :
    track { id := 1, email := "a@x.com", isAdmin := true } [plainU1] [ordOther] 3
      = track { id := 1, email := "b@y.com", isAdmin := false } [plainU1] [ordOther] 3 :=
  (C8_scope_uses_stored_role_not_token.1
    { id := 1, email := "a@x.com", isAdmin := true }
    { id := 1, email := "b@y.com", isAdmin := false }
    [plainU1] [ordOther] 3 none rfl).1

/-- A stored user whose email is already in lower case. -/
def bobUser : User :=
  { uid := 5, email := "bob@x.com", password := "hpw", name := "Bob"
    address := "Addr 1", isAdmin := false, isBlocked := false }

/-- The duplicate record the register route creates for `Bob@x.com`. -/
def dupUser : User :=
  { uid := 6, email := "bob@x.com", password := "pw2", name := "Bob Two"
    address := "Addr 2", isAdmin := false, isBlocked := false }

/-- C9: the register route checks duplicates with the raw request email but
stores the lower-cased one, so a case-variant of an existing email slips
past the check and a second user with the identical stored email is
created; only an exact (case-sensitive) match is rejected. -/
theorem C9_register_case_variant_creates_duplicate :
    register "Bob Two" "Bob@x.com" "pw2" "Addr 2" (fun p => p) 6 [bobUser]
      = .ok dupUser [bobUser, dupUser] ∧
    dupUser.email = bobUser.email ∧
    register "X" "bob@x.com" "pw" "A" (fun p => p) 7 [bobUser]
      = .alreadyExists [bobUser] := by
  decide

/-- C10: the order document saved by the create route is entirely
independent of any body-supplied `user` field, and its owner is always the
authenticated caller's id. -/
theorem C10_create_owner_independent_of_body_user (reqUser : TokenClaims)
    (items : List OrderItem) (tp : Int) (bu bu' : Option Nat)
    (freshId now : Nat) (store : List Order) :
    createOrder reqUser { items := items, totalPrice := tp, user := bu }
        freshId now store
      = createOrder reqUser { items := items, totalPrice := tp, user := bu' }
        freshId now store ∧
    (createOrder reqUser { items := items, totalPrice := tp, user := bu }
        freshId now store).created.user = reqUser.id :=
  ⟨rfl, rfl⟩
